import Mathlib

/-!
Verification of the yieldly household budget derivation engine.

The embedding follows the HouseBudget page (src/frontend/vite.config.ts,
the page source appended after the vite config stanza) and the Goals page
(src/unnamed/part_001 and src/unnamed/part_002).  Monetary values are
embedded as rationals; the JavaScript code works on ordinary numbers and
every computation here is a finite sum, product or division of them.

Two computations the repository's frontend only consumes — the Split
Calculator that derives `primary_amount` / `partner_amount`, and the
emergency-fund coverage months — live in the backend, which is not among
the source files; those are modelled from the spec and marked as such.
-/

namespace Yieldly

/-- `category_type` of a budget line item (vite.config.ts line 43). -/
inductive CategoryType
  | expense
  | saving
  | investment
deriving DecidableEq, Repr

/-- `split_type` of a budget line item (vite.config.ts line 44): `shared`,
`personal_primary` (the spec's `primary_only`) and `personal_partner`
(the spec's `partner_only`). -/
inductive SplitType
  | shared
  | personal_primary
  | personal_partner
deriving DecidableEq, Repr

/-- A budget line item (interface BudgetLineItem, vite.config.ts lines
39-51).  The server-derived fields `primary_amount` and `partner_amount`
are not stored here: they are what the Split Calculator computes. -/
structure BudgetLineItem where
  id : Nat
  name : String
  amount : Rat
  category_type : CategoryType
  split_type : SplitType
  primary_share_percent : Rat
  group : String
  notes : String
  order : Nat
deriving DecidableEq, Repr

/-- A house budget (interface HouseBudget, vite.config.ts lines 53-72),
keeping the stored input fields; the payload's server-derived totals are
exactly what the derivation engine recomputes. -/
structure HouseBudget where
  id : Nat
  name : String
  month : Option Int
  year : Option Int
  is_template : Bool
  primary_salary : Rat
  secondary_income : Rat
  other_income : Rat
  partner_name : String
  partner_contribution : Rat
  line_items : List BudgetLineItem
deriving DecidableEq, Repr

/-- The `reduce((sum, item) => sum + Number(item.amount), 0)` idiom the
page applies to every filtered item list. -/
def sumAmount (items : List BudgetLineItem) : Rat :=
  items.foldl (fun s it => s + it.amount) 0

/-- Partner total contribution (vite.config.ts lines 252-254): sum over
items with `split_type === 'personal_partner'`. -/
def kratiContribution (b : HouseBudget) : Rat :=
  sumAmount (b.line_items.filter fun it => it.split_type == SplitType.personal_partner)

/-- Partner cash into the household pot (vite.config.ts lines 256-258):
sum over items with `split_type === 'personal_partner'` and
`group === 'Income'`. -/
def kratiCashToHousehold (b : HouseBudget) : Rat :=
  sumAmount (b.line_items.filter fun it =>
    it.split_type == SplitType.personal_partner && it.group == "Income")

/-- Total household income (vite.config.ts line 259). -/
def totalIncome (b : HouseBudget) : Rat :=
  b.primary_salary + kratiContribution b

/-- Primary member's outgoing (vite.config.ts lines 261-263): sum over
items with `split_type === 'personal_primary'`, with no category filter. -/
def nishantOutgoing (b : HouseBudget) : Rat :=
  sumAmount (b.line_items.filter fun it => it.split_type == SplitType.personal_primary)

/-- Available pot (vite.config.ts line 265): primary salary plus the
partner's cash contribution to the household. -/
def availablePot (b : HouseBudget) : Rat :=
  b.primary_salary + kratiCashToHousehold b

/-- Remaining buffer (vite.config.ts line 266). -/
def remaining (b : HouseBudget) : Rat :=
  availablePot b - nishantOutgoing b

/-- Primary member's savings (vite.config.ts lines 268-270): sum over
items with `split_type === 'personal_primary'` and
`category_type === 'saving'`. -/
def nishantSavings (b : HouseBudget) : Rat :=
  sumAmount (b.line_items.filter fun it =>
    it.split_type == SplitType.personal_primary && it.category_type == CategoryType.saving)

/-- Savings rate (vite.config.ts line 271):
`availablePot > 0 ? (nishantSavings / availablePot) * 100 : 0`. -/
def savingsRate (b : HouseBudget) : Rat :=
  if 0 < availablePot b then nishantSavings b / availablePot b * 100 else 0

/-- The Remaining card's caption (vite.config.ts line 396):
`remaining >= 0 ? 'Buffer available' : 'Over budget!'`. -/
def remainingLabel (b : HouseBudget) : String :=
  if 0 ≤ remaining b then "Buffer available" else "Over budget!"

/-- The grouping key (vite.config.ts line 221): `item.group || 'Other'`;
the empty string is the only falsy string. -/
def groupKey (it : BudgetLineItem) : String :=
  if it.group = "" then "Other" else it.group

/-- One step of the grouping reduce (vite.config.ts lines 220-225): append
the item to its group's bucket, creating the bucket on first use.  The
JavaScript object keeps string keys in insertion order, so the accumulator
is an insertion-ordered association list. -/
def insertGrouped (acc : List (String × List BudgetLineItem)) (it : BudgetLineItem) :
    List (String × List BudgetLineItem) :=
  let g := groupKey it
  if acc.any (fun p => p.1 == g) then
    acc.map (fun p => if p.1 == g then (p.1, p.2 ++ [it]) else p)
  else
    acc ++ [(g, [it])]

/-- `groupedItems` (vite.config.ts lines 220-225). -/
def groupedItems (b : HouseBudget) : List (String × List BudgetLineItem) :=
  b.line_items.foldl insertGrouped []

/-- One row of `expensesByGroup`. -/
structure GroupTotals where
  group : String
  total : Rat
  savings : Rat
deriving DecidableEq, Repr

/-- `expensesByGroup` (vite.config.ts lines 228-232): per-group expense and
saving subtotals, keeping only rows with a positive subtotal. -/
def expensesByGroup (b : HouseBudget) : List GroupTotals :=
  ((groupedItems b).map fun p =>
    { group := p.1
      total := sumAmount (p.2.filter fun i => i.category_type == CategoryType.expense)
      savings := sumAmount (p.2.filter fun i => i.category_type == CategoryType.saving) :
      GroupTotals }).filter
    fun g => decide (0 < g.total) || decide (0 < g.savings)

/-- The rows the Spending Breakdown card renders (vite.config.ts line 435):
`expensesByGroup.filter(g => g.total > 0)`.  The card then sorts the rows
by descending total, which permutes the display but changes no amount, so
the sort is omitted here. -/
def spendingBreakdownRows (b : HouseBudget) : List GroupTotals :=
  (expensesByGroup b).filter fun g => decide (0 < g.total)

/-- The Total Savings figure of the Savings and Investments card
(vite.config.ts line 477): sum over items with `category_type === 'saving'`
and `group !== 'Income'`. -/
def totalSavingsView (b : HouseBudget) : Rat :=
  sumAmount (b.line_items.filter fun i =>
    i.category_type == CategoryType.saving && !(i.group == "Income"))

/-- A savings goal as the Goals pages read it (src/unnamed/part_001 and
part_002): its progress fields only. -/
structure SavingsGoal where
  current_amount : Rat
  target_amount : Rat
  is_completed : Bool
deriving DecidableEq, Repr

/-- `handleAddFunds` (src/unnamed/part_001 lines 54-70, identically
src/unnamed/part_002 lines 118-134): the update payload once a non-empty
amount has been entered and parsed.
`newAmount = current + add; is_completed: newAmount >= target`. -/
def handleAddFunds (g : SavingsGoal) (addAmount : Rat) : SavingsGoal :=
  let newAmount := g.current_amount + addAmount
  { current_amount := newAmount
    target_amount := g.target_amount
    is_completed := decide (g.target_amount ≤ newAmount) }

/-- Modelled from the spec: the backend Split Calculator deriving
`primary_amount` and `partner_amount`, which the frontend only declares
(vite.config.ts lines 49-50) and displays.  Spec section 4.1: `shared` gives
`primary = amount * primary_share_percent / 100` and
`partner = amount - primary` (subtraction, not a second multiplication);
`primary_only` gives `(amount, 0)`; `partner_only` gives `(0, amount)`. -/
def splitAmounts (it : BudgetLineItem) : Rat × Rat :=
  match it.split_type with
  | SplitType.shared =>
      let primary := it.amount * it.primary_share_percent / 100
      (primary, it.amount - primary)
  | SplitType.personal_primary => (it.amount, 0)
  | SplitType.personal_partner => (0, it.amount)

/-- Modelled from the spec: `essential_monthly_expenses`, the denominator of
the backend's emergency-fund coverage, absent from the staged sources.  Spec
sections 3 and 4.4: the sum of expense-type line items whose `group` lies in
the configurable `ESSENTIAL_GROUPS` allow-list. -/
def essentialMonthlyExpenses (essentialGroups : List String)
    (items : List BudgetLineItem) : Rat :=
  sumAmount (items.filter fun i =>
    i.category_type == CategoryType.expense && essentialGroups.contains i.group)

/-- Modelled from the spec: emergency-fund coverage months, computed by the
backend summary endpoint absent from the staged sources.  Spec section 4.4:
`months_covered = emergency_fund_total / essential_monthly_expenses`, with
the division zero-guarded (spec section 7 guards every division to 0). -/
def monthsCovered (emergencyFundTotal essentialExpensesTotal : Rat) : Rat :=
  if 0 < essentialExpensesTotal then emergencyFundTotal / essentialExpensesTotal else 0

/-- The spec's wording of `partner_cash_to_household` (section 4.3), written
with propositional filters and a mathematical sum, to be compared against the
page's boolean-filtered reduce. -/
def specPartnerCashToHousehold (b : HouseBudget) : Rat :=
  ((b.line_items.filter fun it =>
      decide (it.split_type = SplitType.personal_partner ∧ it.group = "Income")).map
    fun it => it.amount).sum

/-- The outgoing sum exactly as claim C3 words it: expense-type and
saving-type items with the primary-only split, excluding investment-type
items.  The page's `nishantOutgoing` applies no category filter. -/
def claimedPrimaryOutgoing (b : HouseBudget) : Rat :=
  sumAmount (b.line_items.filter fun i =>
    i.split_type == SplitType.personal_primary &&
      (i.category_type == CategoryType.expense || i.category_type == CategoryType.saving))

/-- Everything the page derives from a budget snapshot, collected so that
determinism is a statement about one function. -/
structure EngineOutput where
  groups : List GroupTotals
  partnerContribution : Rat
  partnerCashToHousehold : Rat
  householdIncome : Rat
  primaryOutgoing : Rat
  pot : Rat
  buffer : Rat
  primarySavings : Rat
  rate : Rat
deriving DecidableEq, Repr

/-- The full derivation pass (vite.config.ts lines 220-271). -/
def deriveAll (b : HouseBudget) : EngineOutput :=
  { groups := expensesByGroup b
    partnerContribution := kratiContribution b
    partnerCashToHousehold := kratiCashToHousehold b
    householdIncome := totalIncome b
    primaryOutgoing := nishantOutgoing b
    pot := availablePot b
    buffer := remaining b
    primarySavings := nishantSavings b
    rate := savingsRate b }

/-- A literal line item with the display-only fields defaulted. -/
def mkItem (name : String) (amount : Rat) (cat : CategoryType) (split : SplitType)
    (pct : Rat) (group : String) : BudgetLineItem :=
  { id := 0, name := name, amount := amount, category_type := cat, split_type := split
    primary_share_percent := pct, group := group, notes := "", order := 0 }

/-- A literal budget with the display-only fields defaulted. -/
def mkBudget (salary : Rat) (items : List BudgetLineItem) : HouseBudget :=
  { id := 1, name := "House Budget", month := none, year := none, is_template := true
    primary_salary := salary, secondary_income := 0, other_income := 0
    partner_name := "Krati", partner_contribution := 0, line_items := items }

theorem foldl_add_amount (l : List BudgetLineItem) (a : Rat) :
    l.foldl (fun s it => s + it.amount) a = a + (l.map fun it => it.amount).sum := by
  induction l generalizing a with
  | nil => simp
  | cons x xs ih =>
      rw [List.foldl_cons, ih, List.map_cons, List.sum_cons]
      ring

theorem sumAmount_eq (l : List BudgetLineItem) :
    sumAmount l = (l.map fun it => it.amount).sum := by
  simpa [sumAmount] using foldl_add_amount l 0

theorem sumAmount_nil : sumAmount [] = 0 := rfl

theorem sumAmount_cons (x : BudgetLineItem) (l : List BudgetLineItem) :
    sumAmount (x :: l) = x.amount + sumAmount l := by
  simp [sumAmount_eq]

/-- The item of the spec's shared-split test: amount 100, 70 percent. -/
def sharedExampleItem : BudgetLineItem :=
  mkItem "Mortgage" 100 CategoryType.expense SplitType.shared 70 "Housing"

/-- C1: the Split Calculator gives `shared` items `primary = amount *
primary_share_percent / 100` and `partner = amount - primary`, gives
primary-only items `(amount, 0)` and partner-only items `(0, amount)`, and
the two parts of every item sum back to the amount (exactly, hence within
the 1e-6 tolerance). -/
theorem c1_split_calculator (it : BudgetLineItem) (h0 : 0 ≤ it.amount)
    (h1 : 0 ≤ it.primary_share_percent) (h2 : it.primary_share_percent ≤ 100) :
    (it.split_type = SplitType.shared →
      (splitAmounts it).1 = it.amount * it.primary_share_percent / 100 ∧
      (splitAmounts it).2 = it.amount - (splitAmounts it).1) ∧
    (it.split_type = SplitType.personal_primary → splitAmounts it = (it.amount, 0)) ∧
    (it.split_type = SplitType.personal_partner → splitAmounts it = (0, it.amount)) ∧
    (splitAmounts it).1 + (splitAmounts it).2 = it.amount ∧
    |(splitAmounts it).1 + (splitAmounts it).2 - it.amount| ≤ 1 / 1000000 := by
  have hsum : (splitAmounts it).1 + (splitAmounts it).2 = it.amount := by
    cases h : it.split_type <;> simp [splitAmounts, h]
  refine ⟨fun h => ?_, fun h => ?_, fun h => ?_, hsum, ?_⟩
  · constructor <;> simp [splitAmounts, h]
  · simp [splitAmounts, h]
  · simp [splitAmounts, h]
  · rw [hsum, sub_self, abs_zero]
    norm_num

/-- Witness for C1 at the spec's shared-split test item: amount 100 at 70
percent splits into 70 and 30, which sum back to 100. -/
theorem c1_split_calculator_witness :
    (0 ≤ sharedExampleItem.amount ∧ 0 ≤ sharedExampleItem.primary_share_percent ∧
      sharedExampleItem.primary_share_percent ≤ 100) ∧
    splitAmounts sharedExampleItem = (70, 30) ∧
    (splitAmounts sharedExampleItem).1 + (splitAmounts sharedExampleItem).2 =
      sharedExampleItem.amount := by
  refine ⟨by refine ⟨?_, ?_, ?_⟩ <;> norm_num [sharedExampleItem, mkItem], ?_, ?_⟩
  · norm_num [splitAmounts, sharedExampleItem, mkItem, Prod.ext_iff]
  · exact (c1_split_calculator sharedExampleItem (by norm_num [sharedExampleItem, mkItem])
      (by norm_num [sharedExampleItem, mkItem])
      (by norm_num [sharedExampleItem, mkItem])).2.2.2.1

theorem specPartnerCash_eq (l : List BudgetLineItem) :
    sumAmount (l.filter fun it =>
        it.split_type == SplitType.personal_partner && it.group == "Income") =
      ((l.filter fun it =>
          decide (it.split_type = SplitType.personal_partner ∧ it.group = "Income")).map
        fun it => it.amount).sum := by
  induction l with
  | nil => rfl
  | cons x xs ih =>
      by_cases h1 : x.split_type = SplitType.personal_partner <;>
        by_cases h2 : x.group = "Income" <;>
          simp [List.filter_cons, h1, h2, sumAmount_cons, ih]

/-- A budget whose partner item is a direct payment, not an Income-group
cash transfer: the available pot ignores it. -/
def directPaymentBudget : HouseBudget :=
  mkBudget 0 [mkItem "India SCB" 300 CategoryType.saving SplitType.personal_partner 0 "Savings"]

/-- C2: the available pot is the primary salary plus the partner's cash
into the household — the sum of amounts over the items that are both
partner-only and in the Income group — and it is in general not the salary
plus the partner's total contribution over all partner-only items. -/
theorem c2_available_pot (b : HouseBudget) :
    kratiCashToHousehold b = specPartnerCashToHousehold b ∧
    availablePot b = b.primary_salary + specPartnerCashToHousehold b ∧
    ∃ b2 : HouseBudget, availablePot b2 ≠ b2.primary_salary + kratiContribution b2 := by
  have h : kratiCashToHousehold b = specPartnerCashToHousehold b :=
    specPartnerCash_eq b.line_items
  refine ⟨h, ?_, directPaymentBudget, ?_⟩
  · rw [availablePot, h]
  · have hcash : kratiCashToHousehold directPaymentBudget = 0 := by
      have hf : directPaymentBudget.line_items.filter (fun it =>
          it.split_type == SplitType.personal_partner && it.group == "Income") = [] := by
        decide
      rw [kratiCashToHousehold, hf, sumAmount_nil]
    have hall : kratiContribution directPaymentBudget = 300 := by
      have hf : directPaymentBudget.line_items.filter (fun it =>
          it.split_type == SplitType.personal_partner) =
          [mkItem "India SCB" 300 CategoryType.saving SplitType.personal_partner 0 "Savings"] := by
        decide
      rw [kratiContribution, hf, sumAmount_cons, sumAmount_nil]
      norm_num [mkItem]
    rw [availablePot, hcash, hall]
    norm_num [directPaymentBudget, mkBudget]

/-- A budget containing an investment-type item paid by the primary member:
the page's `remaining` subtracts it, the claim's formula would not. -/
def investmentItemBudget : HouseBudget :=
  mkBudget 1000
    [mkItem "GIA top-up" 100 CategoryType.investment SplitType.personal_primary 0 "Savings"]

/-- Counterexample to C3 as stated: on a budget whose only primary-only
item is investment-type with amount 100 and whose pot is 1000, the page
computes `remaining = 900` (it subtracts every primary-only item), while
the claim's expense-plus-saving sum predicts 1000. -/
theorem c3_counterexample :
    remaining investmentItemBudget = 900 ∧
    availablePot investmentItemBudget - claimedPrimaryOutgoing investmentItemBudget = 1000 ∧
    remaining investmentItemBudget ≠
      availablePot investmentItemBudget - claimedPrimaryOutgoing investmentItemBudget := by
  have hpot : availablePot investmentItemBudget = 1000 := by
    have hf : investmentItemBudget.line_items.filter (fun it =>
        it.split_type == SplitType.personal_partner && it.group == "Income") = [] := by
      decide
    rw [availablePot, kratiCashToHousehold, hf, sumAmount_nil]
    norm_num [investmentItemBudget, mkBudget]
  have hout : nishantOutgoing investmentItemBudget = 100 := by
    have hf : investmentItemBudget.line_items.filter (fun it =>
        it.split_type == SplitType.personal_primary) =
        [mkItem "GIA top-up" 100 CategoryType.investment SplitType.personal_primary 0
          "Savings"] := by
      decide
    rw [nishantOutgoing, hf, sumAmount_cons, sumAmount_nil]
    norm_num [mkItem]
  have hclaimed : claimedPrimaryOutgoing investmentItemBudget = 0 := by
    have hf : investmentItemBudget.line_items.filter (fun i =>
        i.split_type == SplitType.personal_primary &&
          (i.category_type == CategoryType.expense ||
            i.category_type == CategoryType.saving)) = [] := by
      decide
    rw [claimedPrimaryOutgoing, hf, sumAmount_nil]
  have hrem : remaining investmentItemBudget = 900 := by
    rw [remaining, hpot, hout]
    norm_num
  refine ⟨hrem, by rw [hpot, hclaimed]; norm_num, ?_⟩
  rw [hrem, hpot, hclaimed]
  norm_num

/-- C3 amended: `remaining` is the available pot minus the sum of amounts
of ALL primary-only items regardless of category type; it is negative
exactly when the pot is smaller than that sum, and the health check labels
that case Over budget rather than clamping to zero. -/
theorem c3_remaining_over_budget (b : HouseBudget) :
    remaining b = availablePot b - nishantOutgoing b ∧
    (remaining b < 0 ↔ availablePot b < nishantOutgoing b) ∧
    (remainingLabel b = "Over budget!" ↔ remaining b < 0) := by
  refine ⟨rfl, sub_neg, ?_⟩
  by_cases h : 0 ≤ remaining b
  · rw [remainingLabel, if_pos h]
    simp [not_lt.mpr h]
  · rw [remainingLabel, if_neg h]
    simp [lt_of_not_le h]

/-- C4: when the available pot is positive the savings rate is the primary
savings over the pot times 100, and when the pot is zero the savings rate
is exactly the rational 0 — the zero-guard branch, no division happens. -/
theorem c4_savings_rate_guard (b : HouseBudget) :
    (0 < availablePot b → savingsRate b = nishantSavings b / availablePot b * 100) ∧
    (availablePot b = 0 → savingsRate b = 0) := by
  constructor
  · intro h
    rw [savingsRate, if_pos h]
  · intro h
    rw [savingsRate, if_neg]
    rw [h]
    exact lt_irrefl 0

/-- C10: adding funds to a goal sets the new current amount to the old one
plus the entered amount, and marks the goal completed exactly when the new
amount reaches the target. -/
theorem c10_add_funds (g : SavingsGoal) (amt : Rat) :
    (handleAddFunds g amt).current_amount = g.current_amount + amt ∧
    ((handleAddFunds g amt).is_completed = true ↔
      g.target_amount ≤ g.current_amount + amt) := by
  constructor
  · rfl
  · simp [handleAddFunds]

theorem essentialMonthlyExpenses_eq (gs : List String) (items : List BudgetLineItem) :
    essentialMonthlyExpenses gs items =
      ((items.filter fun i =>
          decide (i.category_type = CategoryType.expense ∧ i.group ∈ gs)).map
        fun i => i.amount).sum := by
  have hpt : ∀ i : BudgetLineItem,
      (i.category_type == CategoryType.expense && gs.contains i.group) =
        decide (i.category_type = CategoryType.expense ∧ i.group ∈ gs) := by
    intro i
    by_cases h1 : i.category_type = CategoryType.expense <;>
      by_cases h2 : i.group ∈ gs <;> simp [h1, h2]
  rw [essentialMonthlyExpenses, sumAmount_eq,
    List.filter_congr (fun i _ => hpt i)]

/-- The spec's emergency-coverage test data: Housing 1000 and Transport 300
as expense items. -/
def essentialExampleItems : List BudgetLineItem :=
  [mkItem "Rent" 1000 CategoryType.expense SplitType.shared 50 "Housing",
   mkItem "Car" 300 CategoryType.expense SplitType.shared 50 "Transport"]

theorem essentialExample_total :
    essentialMonthlyExpenses ["Housing", "Transport"] essentialExampleItems = 1300 := by
  have hf : essentialExampleItems.filter (fun i =>
      i.category_type == CategoryType.expense &&
        (["Housing", "Transport"]).contains i.group) = essentialExampleItems := by
    decide
  rw [essentialMonthlyExpenses, hf, essentialExampleItems, sumAmount_cons, sumAmount_cons,
    sumAmount_nil]
  norm_num [mkItem]

/-- C5: essential monthly expenses are the sum of amounts of expense-type
items whose group lies in the configured allow-list, coverage months divide
the emergency fund by that sum, and the spec's end-to-end example —
essential items Housing 1000 and Transport 300 with the allow-list
containing Housing and Transport, fund 6500 — yields 5 months. -/
theorem c5_emergency_coverage (gs : List String) (items : List BudgetLineItem) (fund : Rat)
    (h : 0 < essentialMonthlyExpenses gs items) :
    essentialMonthlyExpenses gs items =
      ((items.filter fun i =>
          decide (i.category_type = CategoryType.expense ∧ i.group ∈ gs)).map
        fun i => i.amount).sum ∧
    monthsCovered fund (essentialMonthlyExpenses gs items) =
      fund / essentialMonthlyExpenses gs items ∧
    monthsCovered 6500
      (essentialMonthlyExpenses ["Housing", "Transport"] essentialExampleItems) = 5 := by
  refine ⟨essentialMonthlyExpenses_eq gs items, ?_, ?_⟩
  · rw [monthsCovered, if_pos h]
  · rw [essentialExample_total, monthsCovered, if_pos (by norm_num)]
    norm_num

/-- Witness for C5 at the spec's example: the essential sum 1300 is
positive and 6500 over it gives 5 months of coverage. -/
theorem c5_emergency_coverage_witness :
    0 < essentialMonthlyExpenses ["Housing", "Transport"] essentialExampleItems ∧
    monthsCovered 6500
      (essentialMonthlyExpenses ["Housing", "Transport"] essentialExampleItems) = 5 := by
  have h : 0 < essentialMonthlyExpenses ["Housing", "Transport"] essentialExampleItems := by
    rw [essentialExample_total]
    norm_num
  exact ⟨h, (c5_emergency_coverage ["Housing", "Transport"] essentialExampleItems 6500 h).2.2⟩

/-- A budget whose only item is an Income-group expense paid by the
partner: the Spending Breakdown card still lists it. -/
def incomeExpenseBudget : HouseBudget :=
  mkBudget 0 [mkItem "Krati cash" 50 CategoryType.expense SplitType.personal_partner 0 "Income"]

/-- Counterexample to C6 as stated: an Income-group expense-type item of
amount 50 produces the row (Income, 50) in the rows the Spending Breakdown
card renders, so Income-group items are not excluded from the expense
totals of that view. -/
theorem c6_counterexample :
    (spendingBreakdownRows incomeExpenseBudget).map (fun e => (e.group, e.total)) =
      [("Income", 50)] := by
  have hitem : incomeExpenseBudget.line_items =
      [mkItem "Krati cash" 50 CategoryType.expense SplitType.personal_partner 0 "Income"] :=
    rfl
  have hg : groupedItems incomeExpenseBudget =
      [("Income",
        [mkItem "Krati cash" 50 CategoryType.expense SplitType.personal_partner 0 "Income"])] := by
    decide
  have hfe : ([mkItem "Krati cash" 50 CategoryType.expense SplitType.personal_partner 0
      "Income"]).filter (fun i => i.category_type == CategoryType.expense) =
      [mkItem "Krati cash" 50 CategoryType.expense SplitType.personal_partner 0 "Income"] := by
    decide
  have hfs : ([mkItem "Krati cash" 50 CategoryType.expense SplitType.personal_partner 0
      "Income"]).filter (fun i => i.category_type == CategoryType.saving) = [] := by
    decide
  have htot : sumAmount
      [mkItem "Krati cash" 50 CategoryType.expense SplitType.personal_partner 0 "Income"] =
      50 := by
    rw [sumAmount_cons, sumAmount_nil]
    norm_num [mkItem]
  have hrows : expensesByGroup incomeExpenseBudget = [⟨"Income", 50, 0⟩] := by
    rw [expensesByGroup, hg]
    simp [hfe, hfs, htot, sumAmount_nil]
  rw [spendingBreakdownRows, hrows]
  simp

/-- A budget with one more item in front. -/
def consItem (b : HouseBudget) (it : BudgetLineItem) : HouseBudget :=
  { b with line_items := it :: b.line_items }

/-- C6 amended: an Income-group saving-type item never contributes to the
Total Savings figure of the spending-breakdown view, and when it is
partner-only its amount counts toward the partner's cash to the household;
Income-group expense-type items, however, are not excluded from the
per-group expense totals of that view (c6_counterexample). -/
theorem c6_income_exclusion (b : HouseBudget) (it : BudgetLineItem)
    (h1 : it.group = "Income") (h2 : it.category_type = CategoryType.saving) :
    totalSavingsView (consItem b it) = totalSavingsView b ∧
    (it.split_type = SplitType.personal_partner →
      kratiCashToHousehold (consItem b it) = it.amount + kratiCashToHousehold b) := by
  constructor
  · rw [totalSavingsView, totalSavingsView]
    simp [consItem, List.filter_cons, h1]
  · intro h3
    rw [kratiCashToHousehold, kratiCashToHousehold]
    simp [consItem, List.filter_cons, h1, h3, sumAmount_cons]

/-- The test item of spec property 8: group Income, saving, amount 300,
paid by the partner. -/
def incomeSavingItem : BudgetLineItem :=
  mkItem "Krati cash" 300 CategoryType.saving SplitType.personal_partner 0 "Income"

/-- An empty budget. -/
def emptyBudget : HouseBudget := mkBudget 0 []

/-- Witness for C6 amended at the spec's test item: adding the Income-group
saving item of 300 leaves the view's Total Savings unchanged and raises the
partner cash to the household by 300. -/
theorem c6_income_exclusion_witness :
    incomeSavingItem.group = "Income" ∧
    incomeSavingItem.category_type = CategoryType.saving ∧
    totalSavingsView (consItem emptyBudget incomeSavingItem) = totalSavingsView emptyBudget ∧
    kratiCashToHousehold (consItem emptyBudget incomeSavingItem) =
      incomeSavingItem.amount + kratiCashToHousehold emptyBudget := by
  have h := c6_income_exclusion emptyBudget incomeSavingItem rfl rfl
  exact ⟨rfl, rfl, h.1, h.2 rfl⟩

/-- C8: the whole derivation pass is a function of the snapshot it is
handed — two budgets with the same line items and the same primary salary
produce equal outputs, whatever their other fields; the pass reads no
clock, no randomness and no state (vite.config.ts lines 220-271 use only
`budget.line_items` and `budget.primary_salary`). -/
theorem c8_determinism (b b2 : HouseBudget) (h1 : b.primary_salary = b2.primary_salary)
    (h2 : b.line_items = b2.line_items) : deriveAll b = deriveAll b2 := by
  simp only [deriveAll, expensesByGroup, groupedItems, kratiContribution,
    kratiCashToHousehold, totalIncome, nishantOutgoing, availablePot, remaining,
    nishantSavings, savingsRate, h1, h2]

/-- One snapshot of the determinism witness. -/
def snapshotA : HouseBudget :=
  { id := 1, name := "first run", month := none, year := none, is_template := true
    primary_salary := 2000, secondary_income := 0, other_income := 0
    partner_name := "Krati", partner_contribution := 0
    line_items := [incomeSavingItem] }

/-- The same snapshot fetched again: identical inputs, different
display-only metadata. -/
def snapshotB : HouseBudget :=
  { id := 2, name := "second run", month := some 5, year := some 2025, is_template := false
    primary_salary := 2000, secondary_income := 7, other_income := 3
    partner_name := "K", partner_contribution := 1
    line_items := [incomeSavingItem] }

/-- Witness for C8: two runs over the same line items and salary give equal
engine outputs. -/
theorem c8_determinism_witness :
    snapshotA.primary_salary = snapshotB.primary_salary ∧
    snapshotA.line_items = snapshotB.line_items ∧
    deriveAll snapshotA = deriveAll snapshotB :=
  ⟨rfl, rfl, c8_determinism snapshotA snapshotB rfl rfl⟩

theorem insertGrouped_self (acc : List (String × List BudgetLineItem)) (it : BudgetLineItem) :
    ∃ items, (groupKey it, items) ∈ insertGrouped acc it ∧ it ∈ items := by
  rw [insertGrouped]
  cases hc : acc.any (fun p => p.1 == groupKey it) with
  | true =>
      simp only [if_true]
      obtain ⟨p, hp, hpk⟩ := List.any_eq_true.mp hc
      have hk : p.1 = groupKey it := by simpa using hpk
      refine ⟨p.2 ++ [it], ?_, by simp⟩
      have himg : (fun q : String × List BudgetLineItem =>
          if q.1 == groupKey it then (q.1, q.2 ++ [it]) else q) p =
          (groupKey it, p.2 ++ [it]) := by
        simp [hk]
      exact himg ▸ List.mem_map_of_mem _ hp
  | false =>
      simp only [Bool.false_eq_true, if_false]
      exact ⟨[it], List.mem_append_right _ (by simp), by simp⟩

theorem mem_insertGrouped_of_mem (acc : List (String × List BudgetLineItem))
    (it : BudgetLineItem) {g : String} {items : List BudgetLineItem} {it0 : BudgetLineItem}
    (h : (g, items) ∈ acc) (h0 : it0 ∈ items) :
    ∃ items2, (g, items2) ∈ insertGrouped acc it ∧ it0 ∈ items2 := by
  rw [insertGrouped]
  cases hc : acc.any (fun p => p.1 == groupKey it) with
  | true =>
      simp only [if_true]
      by_cases hg : g = groupKey it
      · refine ⟨items ++ [it], ?_, List.mem_append_left _ h0⟩
        have himg : (fun q : String × List BudgetLineItem =>
            if q.1 == groupKey it then (q.1, q.2 ++ [it]) else q) (g, items) =
            (g, items ++ [it]) := by
          simp [hg]
        exact himg ▸ List.mem_map_of_mem _ h
      · refine ⟨items, ?_, h0⟩
        have himg : (fun q : String × List BudgetLineItem =>
            if q.1 == groupKey it then (q.1, q.2 ++ [it]) else q) (g, items) =
            (g, items) := by
          simp [hg]
        exact himg ▸ List.mem_map_of_mem _ h
  | false =>
      simp only [Bool.false_eq_true, if_false]
      exact ⟨items, List.mem_append_left _ h, h0⟩

theorem foldl_insertGrouped_preserves (l : List BudgetLineItem) :
    ∀ (acc : List (String × List BudgetLineItem)) {g : String}
      {items : List BudgetLineItem} {it0 : BudgetLineItem},
      (g, items) ∈ acc → it0 ∈ items →
      ∃ items2, (g, items2) ∈ l.foldl insertGrouped acc ∧ it0 ∈ items2 := by
  induction l with
  | nil =>
      intro acc g items it0 h h0
      exact ⟨items, h, h0⟩
  | cons x xs ih =>
      intro acc g items it0 h h0
      obtain ⟨items2, h2, h02⟩ := mem_insertGrouped_of_mem acc x h h0
      exact ih _ h2 h02

theorem mem_foldl_insertGrouped (l : List BudgetLineItem) :
    ∀ (acc : List (String × List BudgetLineItem)) (it : BudgetLineItem), it ∈ l →
      ∃ items, (groupKey it, items) ∈ l.foldl insertGrouped acc ∧ it ∈ items := by
  induction l with
  | nil =>
      intro acc it h
      cases h
  | cons x xs ih =>
      intro acc it h
      rcases List.mem_cons.mp h with rfl | hx
      · obtain ⟨items, hmem, hit⟩ := insertGrouped_self acc it
        exact foldl_insertGrouped_preserves xs _ hmem hit
      · exact ih _ it hx

/-- The group labels the page itself recognizes: the options of the add
modal's group select (vite.config.ts lines 862-869) plus Income, the keys
of its icon and color maps (lines 74-96). -/
def recognizedGroups : List String :=
  ["Housing", "Transport", "Living", "Subscriptions", "Family", "Property",
   "Savings", "Personal", "Income"]

/-- An item whose group label the page does not recognize. -/
def mysteryItem : BudgetLineItem :=
  mkItem "Mystery item" 10 CategoryType.expense SplitType.shared 50 "Mystery"

/-- A budget holding only the unrecognized-group item. -/
def mysteryBudget : HouseBudget := mkBudget 0 [mysteryItem]

/-- Counterexample to C7 as stated: an item with the non-empty,
unrecognized group label Mystery is bucketed under the key Mystery, not
under Other — only the empty string falls back to Other. -/
theorem c7_counterexample :
    "Mystery" ∉ recognizedGroups ∧
    mysteryItem.group = "Mystery" ∧
    groupedItems mysteryBudget = [("Mystery", [mysteryItem])] ∧
    "Other" ∉ (groupedItems mysteryBudget).map Prod.fst := by
  decide

/-- C7 amended: an item whose group is the empty string is bucketed under
the literal key Other, and every other item — a recognized label or not —
is bucketed under its own group label; in both cases the item lands in
some bucket of the grouped mapping, it is never dropped. -/
theorem c7_group_bucketing (b : HouseBudget) (it : BudgetLineItem)
    (h : it ∈ b.line_items) :
    groupKey it = (if it.group = "" then "Other" else it.group) ∧
    ∃ items, (groupKey it, items) ∈ groupedItems b ∧ it ∈ items :=
  ⟨rfl, mem_foldl_insertGrouped b.line_items [] it h⟩

/-- An item with the empty-string group. -/
def emptyGroupItem : BudgetLineItem :=
  mkItem "Misc" 5 CategoryType.expense SplitType.shared 50 ""

/-- A budget holding only the empty-group item. -/
def emptyGroupBudget : HouseBudget := mkBudget 0 [emptyGroupItem]

/-- Witness for C7 amended: the empty-group item lands in the Other bucket
of its budget's grouped mapping. -/
theorem c7_group_bucketing_witness :
    emptyGroupItem ∈ emptyGroupBudget.line_items ∧
    groupKey emptyGroupItem = (if emptyGroupItem.group = "" then "Other" else
      emptyGroupItem.group) ∧
    ∃ items, (groupKey emptyGroupItem, items) ∈ groupedItems emptyGroupBudget ∧
      emptyGroupItem ∈ items := by
  have h := c7_group_bucketing emptyGroupBudget emptyGroupItem (by decide)
  exact ⟨by decide, h.1, h.2⟩

theorem keys_insertGrouped_true (acc : List (String × List BudgetLineItem))
    (it : BudgetLineItem) (hc : acc.any (fun p => p.1 == groupKey it) = true) :
    (insertGrouped acc it).map Prod.fst = acc.map Prod.fst := by
  rw [insertGrouped]
  simp only [hc, if_true, List.map_map]
  apply List.map_congr_left
  intro p _
  by_cases hp : p.1 = groupKey it <;> simp [hp]

theorem keys_insertGrouped_false (acc : List (String × List BudgetLineItem))
    (it : BudgetLineItem) (hc : acc.any (fun p => p.1 == groupKey it) = false) :
    (insertGrouped acc it).map Prod.fst = acc.map Prod.fst ++ [groupKey it] := by
  rw [insertGrouped]
  simp [hc]

theorem nodup_keys_insertGrouped (acc : List (String × List BudgetLineItem))
    (it : BudgetLineItem) (h : (acc.map Prod.fst).Nodup) :
    ((insertGrouped acc it).map Prod.fst).Nodup := by
  cases hc : acc.any (fun p => p.1 == groupKey it) with
  | true =>
      rw [keys_insertGrouped_true acc it hc]
      exact h
  | false =>
      rw [keys_insertGrouped_false acc it hc]
      have hnot : groupKey it ∉ acc.map Prod.fst := by
        intro hmem
        obtain ⟨p, hp, hpk⟩ := List.mem_map.mp hmem
        have htrue : acc.any (fun p => p.1 == groupKey it) = true :=
          List.any_eq_true.mpr ⟨p, hp, by simp [hpk]⟩
        rw [hc] at htrue
        cases htrue
      exact List.Nodup.append h (List.nodup_singleton _) (by simpa using hnot)

theorem groupedItems_keys_nodup (b : HouseBudget) :
    ((groupedItems b).map Prod.fst).Nodup := by
  rw [groupedItems]
  have hgen : ∀ (l : List BudgetLineItem) (acc : List (String × List BudgetLineItem)),
      (acc.map Prod.fst).Nodup → ((l.foldl insertGrouped acc).map Prod.fst).Nodup := by
    intro l
    induction l with
    | nil => exact fun acc h => h
    | cons x xs ih =>
        intro acc h
        exact ih _ (nodup_keys_insertGrouped acc x h)
  exact hgen b.line_items [] (by simp)

/-- C9: a group both of whose subtotals are zero — all its items
investment-type, or all amounts zero — is dropped from the
`expensesByGroup` output entirely: no emitted row carries its label. -/
theorem c9_zero_groups_omitted (b : HouseBudget) (p : String × List BudgetLineItem)
    (hp : p ∈ groupedItems b)
    (hexp : sumAmount (p.2.filter fun i => i.category_type == CategoryType.expense) = 0)
    (hsav : sumAmount (p.2.filter fun i => i.category_type == CategoryType.saving) = 0) :
    ∀ e ∈ expensesByGroup b, e.group ≠ p.1 := by
  intro e he heq
  rw [expensesByGroup] at he
  obtain ⟨hemem, hpos⟩ := List.mem_filter.mp he
  obtain ⟨q, hq, hqe⟩ := List.mem_map.mp hemem
  have hfst : q.1 = p.1 := by
    have hqg : e.group = q.1 := by rw [← hqe]
    rw [← hqg, heq]
  have hqp : q = p :=
    List.inj_on_of_nodup_map (groupedItems_keys_nodup b) hq hp hfst
  subst hqp
  rw [← hqe] at hpos
  simp only [decide_eq_true_eq, Bool.or_eq_true] at hpos
  rcases hpos with hpos | hpos
  · rw [hexp] at hpos
    exact lt_irrefl 0 hpos
  · rw [hsav] at hpos
    exact lt_irrefl 0 hpos

/-- An investment-only group's item. -/
def investmentOnlyItem : BudgetLineItem :=
  mkItem "SS ISA" 100 CategoryType.investment SplitType.personal_primary 0 "Fun"

/-- A second, expense item so the budget has a surviving group. -/
def housingItem : BudgetLineItem :=
  mkItem "Rent" 500 CategoryType.expense SplitType.shared 50 "Housing"

/-- A budget whose Fun group holds only an investment item. -/
def zeroGroupBudget : HouseBudget := mkBudget 500 [investmentOnlyItem, housingItem]

/-- Witness for C9: the Fun group holds only an investment-type item, its
two subtotals are zero, and no row of `expensesByGroup` carries Fun. -/
theorem c9_zero_groups_omitted_witness :
    ("Fun", [investmentOnlyItem]) ∈ groupedItems zeroGroupBudget ∧
    sumAmount ([investmentOnlyItem].filter fun i =>
      i.category_type == CategoryType.expense) = 0 ∧
    sumAmount ([investmentOnlyItem].filter fun i =>
      i.category_type == CategoryType.saving) = 0 ∧
    ∀ e ∈ expensesByGroup zeroGroupBudget, e.group ≠ "Fun" := by
  have hf1 : ([investmentOnlyItem].filter fun i =>
      i.category_type == CategoryType.expense) = [] := by decide
  have hf2 : ([investmentOnlyItem].filter fun i =>
      i.category_type == CategoryType.saving) = [] := by decide
  have hexp : sumAmount ([investmentOnlyItem].filter fun i =>
      i.category_type == CategoryType.expense) = 0 := by rw [hf1, sumAmount_nil]
  have hsav : sumAmount ([investmentOnlyItem].filter fun i =>
      i.category_type == CategoryType.saving) = 0 := by rw [hf2, sumAmount_nil]
  have hp : ("Fun", [investmentOnlyItem]) ∈ groupedItems zeroGroupBudget := by decide
  exact ⟨hp, hexp, hsav,
    c9_zero_groups_omitted zeroGroupBudget ("Fun", [investmentOnlyItem]) hp hexp hsav⟩

end Yieldly
